import Mathlib

/-!
Verification of the Spot Event Plugin configuration synthesis and validation
engine of aws-rfdk (the `ConfigureSpotEventPlugin` construct): the version
gate, group-name uniqueness validation, the singleton-per-endpoint registry,
the settings compiler, the fleet-spec normalizer (tag specifications and
block-device mappings), the access grant resolver and the wire payload.
-/

set_option maxRecDepth 4096

/-- Modelled from the spec: a reported Deadline scheduler version, compared
semantically as major.minor.patch.build; the three-component form carries no
build component and its build is implicitly 0. The construct implementation
(`configure-spot-event-plugin.ts`) is not among the provided sources; only its
unit tests are, so this follows §4.2 of the design document and the version
strings pinned by the tests. -/
structure DeadlineVersion where
  major : Nat
  minor : Nat
  patch : Nat
  build : Option Nat
deriving DecidableEq, Repr

/-- The build component used for comparison: an absent build counts as 0. -/
def DeadlineVersion.buildValue (v : DeadlineVersion) : Nat :=
  v.build.getD 0

/-- Semantic (component-wise lexicographic) strict ordering on versions,
major.minor.patch.build, not lexical string comparison. -/
def semanticLt (a b : DeadlineVersion) : Bool :=
  if a.major ≠ b.major then decide (a.major < b.major)
  else if a.minor ≠ b.minor then decide (a.minor < b.minor)
  else if a.patch ≠ b.patch then decide (a.patch < b.patch)
  else decide (a.buildValue < b.buildValue)

/-- Renders a version back to its reported string form: three components when
no build component was reported, four otherwise. -/
def DeadlineVersion.toVersionString (v : DeadlineVersion) : String :=
  toString v.major ++ "." ++ toString v.minor ++ "." ++ toString v.patch ++
    (match v.build with
     | some b => "." ++ toString b
     | none => "")

/-- Modelled from the spec: the fixed minimum supported Deadline version of
the configuration engine, documented as 10.1.12.0. -/
def minimumVersion : DeadlineVersion :=
  { major := 10, minor := 1, patch := 12, build := some 0 }

/-- The UnsupportedEndpointVersion error message, naming both the required
minimum and the actual reported version string, as pinned by the unit tests. -/
def unsupportedVersionMessage (v : DeadlineVersion) : String :=
  "Minimum supported Deadline version for ConfigureSpotEventPlugin is " ++
    minimumVersion.toVersionString ++ ". Received: " ++ v.toVersionString ++ "."

/-- Modelled from the spec: the version gate of the Validator (§4.2). A target
reporting a version strictly below the fixed minimum fails with
UnsupportedEndpointVersion; any version at or above passes. -/
def checkMinimumVersion (v : DeadlineVersion) : Except String Unit :=
  if semanticLt v minimumVersion then
    Except.error (unsupportedVersionMessage v)
  else
    Except.ok ()

/-- Modelled from the spec: a worker-fleet definition, §3. Its identity is a
group name, unique within a deployment target; the remaining attributes are
the ones the normalizer consumes. Block devices and tags are introduced
further below; here only the fields needed by the validator. -/
structure TagPair where
  name : String
  value : String
deriving DecidableEq, Repr

/-- An EBS volume specification of a block-device entry: every field is
optional and is emitted on the wire only when set. -/
structure EbsDeviceSpec where
  volumeSize : Option Nat
  volumeType : Option String
  iops : Option Nat
  encrypted : Option Bool
  deleteOnTermination : Option Bool
  snapshotId : Option String
  throughput : Option Nat
deriving DecidableEq, Repr

/-- Modelled from the spec: the volume part of a block-device entry — an EBS
device specification and/or a virtual (ephemeral) name, or the "no device"
suppression variant. -/
structure BlockDeviceVolumeSpec where
  ebsDevice : Option EbsDeviceSpec
  virtualName : Option String
  isNoDevice : Bool
deriving DecidableEq, Repr

/-- A block-device entry: device name, volume variant, and the deprecated
"mapping enabled" flag whose value false is a legacy alias for "no device". -/
structure BlockDeviceEntry where
  deviceName : String
  volume : BlockDeviceVolumeSpec
  mappingEnabled : Option Bool
deriving DecidableEq, Repr

/-- Modelled from the spec: a fleet definition (§3), the fields the core
reads: group name (identity), instance types, image, capacity, roles, subnet
placement, tags, block devices, expiration. -/
structure FleetDefinition where
  groupName : String
  instanceTypes : List String
  imageId : String
  maxCapacity : Nat
  allocationStrategy : String
  fleetRoleArn : String
  fleetInstanceRoleArn : String
  instanceProfileArn : String
  securityGroupIds : List String
  subnetIds : List String
  userData : String
  tags : List TagPair
  blockDevices : List BlockDeviceEntry
  validUntil : Option String
deriving DecidableEq, Repr

/-- Finds the first group name in the list that occurs again later in the
list; none when all names are pairwise distinct. -/
def findDuplicate : List String → Option String
  | [] => none
  | g :: rest => if g ∈ rest then some g else findDuplicate rest

/-- The DuplicateGroupName error message, identifying the offending group
name, as pinned by the unit tests. -/
def duplicateGroupNameMessage (g : String) : String :=
  "Bad Group Name: " ++ g ++ ". Group names in Spot Fleet Request Configurations should be unique."

/-- Modelled from the spec: group-name uniqueness validation of the Validator
(§4.2): for all pairs of distinct fleets the group names must differ; a
duplicate fails with DuplicateGroupName naming the offending group name. -/
def validateGroupNames (fleets : List FleetDefinition) : Except String Unit :=
  match findDuplicate (fleets.map (fun f => f.groupName)) with
  | some g => Except.error (duplicateGroupNameMessage g)
  | none => Except.ok ()

theorem findDuplicate_eq_none_iff (l : List String) :
    findDuplicate l = none ↔ l.Nodup := by
  induction l with
  | nil => simp [findDuplicate]
  | cons g rest ih =>
    by_cases h : g ∈ rest
    · simp [findDuplicate, h]
    · simp [findDuplicate, h, ih]

theorem findDuplicate_some_count {l : List String} {g : String}
    (h : findDuplicate l = some g) : 2 ≤ l.count g := by
  induction l with
  | nil => simp [findDuplicate] at h
  | cons a rest ih =>
    rw [List.count_cons]
    by_cases hmem : a ∈ rest
    · simp only [findDuplicate, hmem, if_pos] at h
      cases h
      have h1 : 0 < rest.count g := List.count_pos_iff.mpr hmem
      simp only [beq_self_eq_true, if_true]
      omega
    · simp only [findDuplicate, hmem, if_neg, not_false_iff] at h
      have h2 := ih h
      split <;> omega

/-- C1. Version gate: every reported version strictly below 10.1.12.0 under
semantic major.minor.patch.build comparison fails with an
UnsupportedEndpointVersion error naming both the required minimum (10.1.12.0)
and the actual version string; every version at or above passes, including the
three-component form 10.1.12 whose build is implicitly 0; in particular
10.1.9, 10.1.10 and 10.1.11 fail and 10.1.12 passes. -/
theorem version_gate :
    (∀ v : DeadlineVersion, semanticLt v minimumVersion = true →
      checkMinimumVersion v = Except.error (unsupportedVersionMessage v) ∧
      ∃ p m s, unsupportedVersionMessage v =
        p ++ minimumVersion.toVersionString ++ m ++ v.toVersionString ++ s) ∧
    (∀ v : DeadlineVersion, semanticLt v minimumVersion = false →
      checkMinimumVersion v = Except.ok ()) ∧
    checkMinimumVersion { major := 10, minor := 1, patch := 9, build := none } =
      Except.error (unsupportedVersionMessage { major := 10, minor := 1, patch := 9, build := none }) ∧
    checkMinimumVersion { major := 10, minor := 1, patch := 10, build := none } =
      Except.error (unsupportedVersionMessage { major := 10, minor := 1, patch := 10, build := none }) ∧
    checkMinimumVersion { major := 10, minor := 1, patch := 11, build := none } =
      Except.error (unsupportedVersionMessage { major := 10, minor := 1, patch := 11, build := none }) ∧
    checkMinimumVersion { major := 10, minor := 1, patch := 12, build := none } =
      Except.ok () := by
  refine ⟨?_, ?_, rfl, rfl, rfl, rfl⟩
  · intro v hlt
    refine ⟨by simp [checkMinimumVersion, hlt], ?_⟩
    exact ⟨"Minimum supported Deadline version for ConfigureSpotEventPlugin is ",
      ". Received: ", ".", rfl⟩
  · intro v hge
    simp [checkMinimumVersion, hge]

/-- C1 witness: instantiated at the reported version 10.1.9, which is
semantically below the minimum and is rejected with the message naming both
version strings. -/
theorem version_gate_witness :
    semanticLt { major := 10, minor := 1, patch := 9, build := none } minimumVersion = true ∧
    checkMinimumVersion { major := 10, minor := 1, patch := 9, build := none } =
      Except.error (unsupportedVersionMessage { major := 10, minor := 1, patch := 9, build := none }) :=
  ⟨by decide, (version_gate.1 { major := 10, minor := 1, patch := 9, build := none } (by decide)).1⟩

/-- C2. Group-name uniqueness: validation succeeds exactly when the group
names of the fleet list are pairwise distinct, and when a name is duplicated
the validator fails with a duplicate-group-name error identifying that name
(which indeed occurs at least twice in the list). -/
theorem groupName_uniqueness (fleets : List FleetDefinition) :
    (validateGroupNames fleets = Except.ok () ↔
      (fleets.map (fun f => f.groupName)).Nodup) ∧
    (∀ g, findDuplicate (fleets.map (fun f => f.groupName)) = some g →
      validateGroupNames fleets = Except.error (duplicateGroupNameMessage g) ∧
      2 ≤ (fleets.map (fun f => f.groupName)).count g) := by
  constructor
  · constructor
    · intro h
      rw [← findDuplicate_eq_none_iff]
      by_contra hne
      match hfd : findDuplicate (fleets.map (fun f => f.groupName)) with
      | none => exact hne hfd
      | some g => simp [validateGroupNames, hfd] at h
    · intro h
      have := (findDuplicate_eq_none_iff (fleets.map (fun f => f.groupName))).mpr h
      simp [validateGroupNames, this]
  · intro g hg
    exact ⟨by simp [validateGroupNames, hg], findDuplicate_some_count hg⟩

/-- A concrete fleet definition mirroring the one built in the unit tests. -/
def sampleFleet : FleetDefinition :=
  { groupName := "group_name1", instanceTypes := ["t2.small"], imageId := "ami-any",
    maxCapacity := 1, allocationStrategy := "lowestPrice", fleetRoleArn := "fleetRole",
    fleetInstanceRoleArn := "instanceRole", instanceProfileArn := "profile",
    securityGroupIds := ["sg-1"], subnetIds := ["subnet-1"], userData := "",
    tags := [], blockDevices := [], validUntil := none }

/-- C2 witness: a two-fleet list sharing the group name from the tests fails
naming that group; the single-fleet list succeeds. -/
theorem groupName_uniqueness_witness :
    validateGroupNames [sampleFleet, sampleFleet] =
      Except.error (duplicateGroupNameMessage "group_name1") ∧
    validateGroupNames [sampleFleet] = Except.ok () := by
  refine ⟨?_, ?_⟩
  · exact ((groupName_uniqueness [sampleFleet, sampleFleet]).2 "group_name1" (by decide)).1
  · exact (groupName_uniqueness [sampleFleet]).1.mpr (by decide)

/-- The duplicate-target error message, as pinned by the unit tests. -/
def singletonErrorMessage : String :=
  "Only one ConfigureSpotEventPlugin construct is allowed per render queue."

/-- Modelled from the spec: the process-scoped endpoint registry enforcing the
singleton-per-endpoint invariant (§3 DeploymentTarget, §9): an explicit
insert-if-absent operation keyed by endpoint identity that returns a conflict
result when the endpoint is already registered. -/
def registerEndpoint (reg : List String) (e : String) : Except String (List String) :=
  if e ∈ reg then Except.error singletonErrorMessage
  else Except.ok (e :: reg)

/-- C3. Singleton-per-endpoint invariant: after a successful registration of
an endpoint, a second registration of the same endpoint fails; two distinct
unregistered endpoints register successfully one after the other; and every
successful registration preserves the at-most-one-per-endpoint property
(no-duplicate registry). -/
theorem singleton_per_endpoint :
    (∀ (reg : List String) (e : String) (r : List String),
      registerEndpoint reg e = Except.ok r →
      registerEndpoint r e = Except.error singletonErrorMessage) ∧
    (∀ (reg : List String) (e e' : String), e ≠ e' → e ∉ reg → e' ∉ reg →
      ∃ r r', registerEndpoint reg e = Except.ok r ∧
        registerEndpoint r e' = Except.ok r') ∧
    (∀ (reg : List String) (e : String) (r : List String), reg.Nodup →
      registerEndpoint reg e = Except.ok r → r.Nodup) := by
  refine ⟨?_, ?_, ?_⟩
  · intro reg e r h
    by_cases hmem : e ∈ reg
    · simp [registerEndpoint, hmem] at h
    · simp only [registerEndpoint, hmem, if_neg, not_false_iff, Except.ok.injEq] at h
      subst h
      simp [registerEndpoint]
  · intro reg e e' hne he he'
    refine ⟨e :: reg, e' :: e :: reg, by simp [registerEndpoint, he], ?_⟩
    have : e' ∉ e :: reg := by
      simp only [List.mem_cons, not_or]
      exact ⟨fun h => hne h.symm, he'⟩
    simp [registerEndpoint, this]
  · intro reg e r hnd h
    by_cases hmem : e ∈ reg
    · simp [registerEndpoint, hmem] at h
    · simp only [registerEndpoint, hmem, if_neg, not_false_iff, Except.ok.injEq] at h
      subst h
      exact List.Nodup.cons hmem hnd

/-- C3 witness: registering the endpoint "rq1" in the empty registry succeeds,
re-registering it fails, and registering the distinct "rq2" afterwards
succeeds; the resulting registries have no duplicates. -/
theorem singleton_per_endpoint_witness :
    registerEndpoint (["rq1"] : List String) "rq1" = Except.error singletonErrorMessage ∧
    (∃ r r', registerEndpoint ([] : List String) "rq1" = Except.ok r ∧
      registerEndpoint r "rq2" = Except.ok r') ∧
    (["rq1"] : List String).Nodup := by
  refine ⟨?_, ?_, ?_⟩
  · exact singleton_per_endpoint.1 [] "rq1" ["rq1"] rfl
  · exact singleton_per_endpoint.2.1 [] "rq1" "rq2" (by decide) (by decide) (by decide)
  · exact singleton_per_endpoint.2.2 [] "rq1" ["rq1"] (by decide) rfl

/-- A duration value; stored in seconds, serialized as whole minutes. -/
structure Duration where
  seconds : Nat
deriving DecidableEq, Repr

/-- Builds a duration from whole minutes. -/
def Duration.ofMinutes (m : Nat) : Duration :=
  { seconds := m * 60 }

/-- Serializes a duration as whole-number minutes. -/
def Duration.toMinutes (d : Duration) : Nat :=
  d.seconds / 60

/-- The AWS instance status display option: Disabled or ExtraInfo0..N. -/
inductive SpotEventPluginDisplayInstanceStatus where
  | disabled
  | extraInfo (n : Nat)
deriving DecidableEq, Repr

/-- Wire string of the instance status display option. -/
def displayInstanceStatusToString : SpotEventPluginDisplayInstanceStatus → String
  | .disabled => "Disabled"
  | .extraInfo n => "ExtraInfo" ++ toString n

/-- Logging verbosity levels of the plugin. -/
inductive SpotEventPluginLoggingLevel where
  | standard
  | verbose
  | debug
  | off
deriving DecidableEq, Repr

/-- Wire string of the logging verbosity level. -/
def loggingLevelToString : SpotEventPluginLoggingLevel → String
  | .standard => "Standard"
  | .verbose => "Verbose"
  | .debug => "Debug"
  | .off => "Off"

/-- Pre-job task mode of the plugin. -/
inductive SpotEventPluginPreJobTaskMode where
  | conservative
  | normal
  | ignore
deriving DecidableEq, Repr

/-- Wire string of the pre-job task mode. -/
def preJobTaskModeToString : SpotEventPluginPreJobTaskMode → String
  | .conservative => "Conservative"
  | .normal => "Normal"
  | .ignore => "Ignore"

/-- Global plugin state: the enum value names on the wire are asymmetric —
the enabled value serializes as the two-word literal "Global Enabled" while
the disabled value serializes as "Disabled". -/
inductive SpotEventPluginState where
  | globalEnabled
  | disabled
deriving DecidableEq, Repr

/-- Wire string of the global plugin state. -/
def stateToString : SpotEventPluginState → String
  | .globalEnabled => "Global Enabled"
  | .disabled => "Disabled"

/-- Modelled from the spec: the caller-supplied partial plugin settings (§3
PluginSettings): every field optional, merged over the documented defaults. -/
structure SpotEventPluginSettings where
  awsInstanceStatus : Option SpotEventPluginDisplayInstanceStatus
  deleteEC2SpotInterruptedWorkers : Option Bool
  deleteSEPTerminatedWorkers : Option Bool
  idleShutdown : Option Duration
  loggingLevel : Option SpotEventPluginLoggingLevel
  preJobTaskMode : Option SpotEventPluginPreJobTaskMode
  region : Option String
  enableResourceTracker : Option Bool
  maximumInstancesStartedPerCycle : Option Nat
  state : Option SpotEventPluginState
  strictHardCap : Option Bool
deriving DecidableEq, Repr

/-- The user settings object with every field left unspecified. -/
def emptySettings : SpotEventPluginSettings :=
  { awsInstanceStatus := none, deleteEC2SpotInterruptedWorkers := none,
    deleteSEPTerminatedWorkers := none, idleShutdown := none,
    loggingLevel := none, preJobTaskMode := none, region := none,
    enableResourceTracker := none, maximumInstancesStartedPerCycle := none,
    state := none, strictHardCap := none }

/-- The wire-level merged plugin settings object, exact keys as emitted. -/
structure PluginSettingsWire where
  AWSInstanceStatus : String
  DeleteInterruptedSlaves : Bool
  DeleteTerminatedSlaves : Bool
  IdleShutdown : Nat
  Logging : String
  PreJobTaskMode : String
  Region : String
  ResourceTracker : Bool
  StaggerInstances : Nat
  State : String
  StrictHardCap : Bool
deriving DecidableEq, Repr

/-- Modelled from the spec: the Settings Compiler (§4.3), a total function
merging the caller's partial settings over the documented defaults and
translating enum identifiers to exact wire-format strings; durations are
serialized as whole-number minutes, and the default region is the deployment
target's region. -/
def compileSettings (s : SpotEventPluginSettings) (targetRegion : String) : PluginSettingsWire :=
  { AWSInstanceStatus :=
      displayInstanceStatusToString (s.awsInstanceStatus.getD .disabled),
    DeleteInterruptedSlaves := s.deleteEC2SpotInterruptedWorkers.getD false,
    DeleteTerminatedSlaves := s.deleteSEPTerminatedWorkers.getD false,
    IdleShutdown := (s.idleShutdown.getD (Duration.ofMinutes 10)).toMinutes,
    Logging := loggingLevelToString (s.loggingLevel.getD .standard),
    PreJobTaskMode := preJobTaskModeToString (s.preJobTaskMode.getD .conservative),
    Region := s.region.getD targetRegion,
    ResourceTracker := s.enableResourceTracker.getD true,
    StaggerInstances := s.maximumInstancesStartedPerCycle.getD 50,
    State := stateToString (s.state.getD .globalEnabled),
    StrictHardCap := s.strictHardCap.getD false }

/-- C5. Settings compilation is total (a plain function) and merges field by
field: every absent field takes its documented default — witnessed by the
compilation of the empty settings object, which yields exactly the documented
default wire object — every present field overrides its default (the getD
equations), enum fields translate to exact wire strings with the asymmetric
global-state naming ("Global Enabled" vs "Disabled"), and duration-valued
fields serialize as whole-number minutes. -/
theorem settings_compilation (s : SpotEventPluginSettings) (targetRegion : String) :
    compileSettings emptySettings targetRegion =
      { AWSInstanceStatus := "Disabled", DeleteInterruptedSlaves := false,
        DeleteTerminatedSlaves := false, IdleShutdown := 10,
        Logging := "Standard", PreJobTaskMode := "Conservative",
        Region := targetRegion, ResourceTracker := true, StaggerInstances := 50,
        State := "Global Enabled", StrictHardCap := false } ∧
    (compileSettings s targetRegion).AWSInstanceStatus =
      displayInstanceStatusToString (s.awsInstanceStatus.getD .disabled) ∧
    (compileSettings s targetRegion).DeleteInterruptedSlaves =
      s.deleteEC2SpotInterruptedWorkers.getD false ∧
    (compileSettings s targetRegion).DeleteTerminatedSlaves =
      s.deleteSEPTerminatedWorkers.getD false ∧
    (compileSettings s targetRegion).IdleShutdown =
      (s.idleShutdown.getD (Duration.ofMinutes 10)).toMinutes ∧
    (compileSettings s targetRegion).Logging =
      loggingLevelToString (s.loggingLevel.getD .standard) ∧
    (compileSettings s targetRegion).PreJobTaskMode =
      preJobTaskModeToString (s.preJobTaskMode.getD .conservative) ∧
    (compileSettings s targetRegion).Region = s.region.getD targetRegion ∧
    (compileSettings s targetRegion).ResourceTracker =
      s.enableResourceTracker.getD true ∧
    (compileSettings s targetRegion).StaggerInstances =
      s.maximumInstancesStartedPerCycle.getD 50 ∧
    (compileSettings s targetRegion).State = stateToString (s.state.getD .globalEnabled) ∧
    (compileSettings s targetRegion).StrictHardCap = s.strictHardCap.getD false ∧
    stateToString .globalEnabled = "Global Enabled" ∧
    stateToString .disabled = "Disabled" ∧
    (∀ m : Nat, (Duration.ofMinutes m).toMinutes = m) := by
  refine ⟨rfl, rfl, rfl, rfl, rfl, rfl, rfl, rfl, rfl, rfl, rfl, rfl, rfl, rfl, ?_⟩
  intro m
  simp [Duration.ofMinutes, Duration.toMinutes, Nat.mul_div_cancel]

/-- The wire form of an EBS block-device object: every key is emitted only
when the corresponding field was set; in particular Encrypted is entirely
absent when the encrypted flag was not specified. -/
structure EbsWire where
  VolumeSize : Option Nat
  VolumeType : Option String
  Iops : Option Nat
  Encrypted : Option Bool
  DeleteOnTermination : Option Bool
  SnapshotId : Option String
  Throughput : Option Nat
deriving DecidableEq, Repr

/-- Translates an EBS device specification to its wire object, passing every
optional field through unchanged (absent stays absent). -/
def ebsDeviceToWire (e : EbsDeviceSpec) : EbsWire :=
  { VolumeSize := e.volumeSize, VolumeType := e.volumeType, Iops := e.iops,
    Encrypted := e.encrypted, DeleteOnTermination := e.deleteOnTermination,
    SnapshotId := e.snapshotId, Throughput := e.throughput }

/-- The wire form of one block-device mapping entry. -/
structure BlockDeviceMappingWire where
  DeviceName : String
  Ebs : Option EbsWire
  VirtualName : Option String
  NoDevice : Option String
deriving DecidableEq, Repr

/-- Modelled from the spec: block-device mapping normalization (§4.1): the
"no device" variant, and the deprecated mapping-enabled flag set to false
(which overrides any volume specification supplied), both emit the
device-name/NoDevice marker with no Ebs key; otherwise the EBS object and the
virtual name are emitted as supplied by the volume. -/
def synthesizeBlockDeviceMapping (bd : BlockDeviceEntry) : BlockDeviceMappingWire :=
  if bd.volume.isNoDevice ∨ bd.mappingEnabled = some false then
    { DeviceName := bd.deviceName, Ebs := none, VirtualName := none,
      NoDevice := some "" }
  else
    { DeviceName := bd.deviceName, Ebs := bd.volume.ebsDevice.map ebsDeviceToWire,
      VirtualName := bd.volume.virtualName, NoDevice := none }

/-- C7. Block-device normalization edge cases: an EBS entry whose encrypted
flag is unset emits an Ebs object with no Encrypted key; the "no device"
variant and the deprecated mappingEnabled=false flag (even when an EBS volume
specification is also supplied — the flag overrides it) both emit the mapping
with the device name, a NoDevice empty-string marker and no Ebs key. -/
theorem blockDevice_edge_cases (bd : BlockDeviceEntry) :
    (∀ e, bd.volume.ebsDevice = some e → e.encrypted = none →
      bd.volume.isNoDevice = false → bd.mappingEnabled ≠ some false →
      ∃ w, (synthesizeBlockDeviceMapping bd).Ebs = some w ∧ w.Encrypted = none) ∧
    (bd.volume.isNoDevice = true ∨ bd.mappingEnabled = some false →
      synthesizeBlockDeviceMapping bd =
        { DeviceName := bd.deviceName, Ebs := none, VirtualName := none,
          NoDevice := some "" }) := by
  constructor
  · intro e he henc hnodev hmap
    have hcond : ¬(bd.volume.isNoDevice ∨ bd.mappingEnabled = some false) := by
      simp [hnodev, hmap]
    refine ⟨ebsDeviceToWire e, ?_, ?_⟩
    · simp [synthesizeBlockDeviceMapping, hcond, he]
    · simp [ebsDeviceToWire, henc]
  · intro h
    have hcond : (bd.volume.isNoDevice ∨ bd.mappingEnabled = some false) := by
      rcases h with h | h
      · exact Or.inl h
      · exact Or.inr h
    simp [synthesizeBlockDeviceMapping, hcond]

/-- A concrete EBS specification with the encrypted flag unset, mirroring the
"custom volume" unit test. -/
def sampleEbsNoEncrypted : EbsDeviceSpec :=
  { volumeSize := some 50, volumeType := some "standard", iops := some 100,
    encrypted := none, deleteOnTermination := some true,
    snapshotId := some "snapshotId", throughput := none }

/-- A concrete block-device entry carrying both an EBS specification and a
virtual name, mirroring the "custom volume" unit test. -/
def sampleBdBoth : BlockDeviceEntry :=
  { deviceName := "/dev/xvda",
    volume := { ebsDevice := some sampleEbsNoEncrypted,
                virtualName := some "name", isNoDevice := false },
    mappingEnabled := none }

/-- A concrete "no device" block-device entry. -/
def sampleBdNoDevice : BlockDeviceEntry :=
  { deviceName := "/dev/xvda",
    volume := { ebsDevice := none, virtualName := none, isNoDevice := true },
    mappingEnabled := none }

/-- A concrete 50 GiB EBS volume specification with only its size set. -/
def sampleEbs50 : EbsDeviceSpec :=
  { volumeSize := some 50, volumeType := none, iops := none, encrypted := none,
    deleteOnTermination := none, snapshotId := none, throughput := none }

/-- A concrete block-device entry carrying the 50 GiB EBS volume but with the
deprecated mappingEnabled flag set to false, mirroring the "deprecated
mappingEnabled" unit test. -/
def sampleBdMappingDisabled : BlockDeviceEntry :=
  { deviceName := "/dev/xvda",
    volume := { ebsDevice := some sampleEbs50, virtualName := none,
                isNoDevice := false },
    mappingEnabled := some false }

/-- C7 witness: on the concrete entries of the unit tests — a custom volume
with encrypted unset, the no-device entry, and the deprecated disabled
mapping carrying a volume — the normalizer omits the Encrypted key and emits
the bare NoDevice marker respectively. -/
theorem blockDevice_edge_cases_witness :
    (∃ w, (synthesizeBlockDeviceMapping sampleBdBoth).Ebs = some w ∧
      w.Encrypted = none) ∧
    synthesizeBlockDeviceMapping sampleBdNoDevice =
      { DeviceName := "/dev/xvda", Ebs := none, VirtualName := none,
        NoDevice := some "" } ∧
    synthesizeBlockDeviceMapping sampleBdMappingDisabled =
      { DeviceName := "/dev/xvda", Ebs := none, VirtualName := none,
        NoDevice := some "" } := by
  refine ⟨?_, ?_, ?_⟩
  · exact (blockDevice_edge_cases sampleBdBoth).1 sampleEbsNoEncrypted rfl rfl rfl (by decide)
  · exact (blockDevice_edge_cases sampleBdNoDevice).2 (Or.inl rfl)
  · exact (blockDevice_edge_cases sampleBdMappingDisabled).2 (Or.inr (by decide))

/-- C8 counterexample: the claim that an emitted mapping never carries more
than one of the Ebs, VirtualName and NoDevice keys fails on a volume that
supplies both an EBS specification and a virtual name (exactly the "custom
volume" unit test input): the emitted mapping carries both Ebs and
VirtualName. -/
theorem blockDevice_exclusivity_counterexample :
    (synthesizeBlockDeviceMapping sampleBdBoth).Ebs.isSome = true ∧
    (synthesizeBlockDeviceMapping sampleBdBoth).VirtualName.isSome = true := by
  exact ⟨rfl, rfl⟩

/-- C8 amended. NoDevice exclusivity: when the emitted mapping carries the
NoDevice marker it carries neither Ebs nor VirtualName; otherwise it never
carries NoDevice and carries the Ebs object and/or the virtual name exactly
as the volume supplies them — Ebs and VirtualName may co-occur when the
volume supplies both. -/
theorem blockDevice_noDevice_exclusive (bd : BlockDeviceEntry) :
    ((synthesizeBlockDeviceMapping bd).NoDevice.isSome = true →
      (synthesizeBlockDeviceMapping bd).Ebs = none ∧
      (synthesizeBlockDeviceMapping bd).VirtualName = none) ∧
    ((synthesizeBlockDeviceMapping bd).NoDevice = none →
      (synthesizeBlockDeviceMapping bd).Ebs = bd.volume.ebsDevice.map ebsDeviceToWire ∧
      (synthesizeBlockDeviceMapping bd).VirtualName = bd.volume.virtualName) := by
  by_cases hcond : bd.volume.isNoDevice ∨ bd.mappingEnabled = some false
  · constructor
    · intro _
      simp [synthesizeBlockDeviceMapping, hcond]
    · intro h
      simp [synthesizeBlockDeviceMapping, hcond] at h
  · constructor
    · intro h
      simp [synthesizeBlockDeviceMapping, hcond] at h
    · intro _
      simp [synthesizeBlockDeviceMapping, hcond]

/-- C8 amended witness: on the no-device entry the emitted mapping has the
NoDevice marker and no other key; on the custom-volume entry there is no
NoDevice marker and the Ebs and VirtualName keys are as supplied. -/
theorem blockDevice_noDevice_exclusive_witness :
    ((synthesizeBlockDeviceMapping sampleBdNoDevice).Ebs = none ∧
      (synthesizeBlockDeviceMapping sampleBdNoDevice).VirtualName = none) ∧
    ((synthesizeBlockDeviceMapping sampleBdBoth).Ebs =
        (sampleBdBoth.volume.ebsDevice.map ebsDeviceToWire) ∧
      (synthesizeBlockDeviceMapping sampleBdBoth).VirtualName =
        sampleBdBoth.volume.virtualName) := by
  refine ⟨?_, ?_⟩
  · exact (blockDevice_noDevice_exclusive sampleBdNoDevice).1 rfl
  · exact (blockDevice_noDevice_exclusive sampleBdBoth).2 rfl

/-- A tag-specification block: the resource type it applies to, and the tags. -/
structure TagSpecification where
  ResourceType : String
  Tags : List TagPair
deriving DecidableEq, Repr

/-- Modelled from the spec: the fixed RFDK-identifying name/value tag injected
into every emitted tag-specification block. -/
def rfdkTag : TagPair :=
  { name := "aws-rfdk", value := "SpotEventPluginFleet" }

/-- Modelled from the spec: tag-specification emission of the FleetSpec
Normalizer (§4.1): when the fleet has any tags configured, one block for the
given resource type carrying the fixed RFDK-identifying tag together with the
fleet's tags; when the fleet has no tags, emission is entirely omitted
(absent key, not an empty list). -/
def tagSpecifications (fleet : FleetDefinition) (resourceType : String) :
    Option (List TagSpecification) :=
  if fleet.tags.isEmpty then none
  else some [{ ResourceType := resourceType, Tags := rfdkTag :: fleet.tags }]

/-- The wire form of one launch specification of a fleet request document:
subnets are comma-joined to a single flat string and only the first instance
type of the list is emitted. -/
structure LaunchSpecificationWire where
  IamInstanceProfileArn : String
  ImageId : String
  SecurityGroups : List String
  SubnetId : String
  TagSpecificationsKey : Option (List TagSpecification)
  UserData : String
  InstanceType : String
  BlockDeviceMappings : Option (List BlockDeviceMappingWire)
deriving DecidableEq, Repr

/-- Modelled from the spec: the launch specification the normalizer derives
from one fleet (§4.1): profile/image/user-data copied verbatim, subnet ids
comma-joined into one string, the first instance type only, instance-scoped
tag specifications, and block-device mappings only when block devices are
configured. -/
def launchSpecification (fleet : FleetDefinition) : LaunchSpecificationWire :=
  { IamInstanceProfileArn := fleet.instanceProfileArn,
    ImageId := fleet.imageId,
    SecurityGroups := fleet.securityGroupIds,
    SubnetId := String.intercalate "," fleet.subnetIds,
    TagSpecificationsKey := tagSpecifications fleet "instance",
    UserData := fleet.userData,
    InstanceType := fleet.instanceTypes.headD "",
    BlockDeviceMappings :=
      if fleet.blockDevices.isEmpty then none
      else some (fleet.blockDevices.map synthesizeBlockDeviceMapping) }

/-- The wire form of one per-group fleet request document. The wire key
`Type` is modelled as the field FleetType. -/
structure FleetRequestDocument where
  AllocationStrategy : String
  IamFleetRole : String
  LaunchSpecifications : List LaunchSpecificationWire
  ReplaceUnhealthyInstances : Bool
  TargetCapacity : Nat
  TerminateInstancesWithExpiration : Bool
  FleetType : String
  TagSpecificationsKey : Option (List TagSpecification)
  ValidUntil : Option String
deriving DecidableEq, Repr

/-- Modelled from the spec: the FleetSpec Normalizer (§4.1): allocation
strategy and fleet role copied verbatim, one launch specification, target
capacity = max capacity, Type = "maintain", ReplaceUnhealthyInstances and
TerminateInstancesWithExpiration always true, spot-fleet-request-scoped tag
specifications, and the expiration timestamp only when present. -/
def normalizeFleet (fleet : FleetDefinition) : FleetRequestDocument :=
  { AllocationStrategy := fleet.allocationStrategy,
    IamFleetRole := fleet.fleetRoleArn,
    LaunchSpecifications := [launchSpecification fleet],
    ReplaceUnhealthyInstances := true,
    TargetCapacity := fleet.maxCapacity,
    TerminateInstancesWithExpiration := true,
    FleetType := "maintain",
    TagSpecificationsKey := tagSpecifications fleet "spot-fleet-request",
    ValidUntil := fleet.validUntil }

/-- C6. Tag specifications: a fleet with no tags yields a request document
whose tag-specification key is absent for both resource types (no
spot-fleet-request block at the top level and no instance block in any launch
specification); a fleet with at least one tag yields tag-specification blocks
for both the "spot-fleet-request" and the "instance" resource types, each
including the fixed RFDK-identifying tag. -/
theorem tag_specifications (fleet : FleetDefinition) :
    (fleet.tags = [] →
      (normalizeFleet fleet).TagSpecificationsKey = none ∧
      ∀ ls ∈ (normalizeFleet fleet).LaunchSpecifications,
        ls.TagSpecificationsKey = none) ∧
    (fleet.tags ≠ [] →
      (∃ specs, (normalizeFleet fleet).TagSpecificationsKey = some specs ∧
        ∃ ts ∈ specs, ts.ResourceType = "spot-fleet-request" ∧ rfdkTag ∈ ts.Tags) ∧
      ∀ ls ∈ (normalizeFleet fleet).LaunchSpecifications,
        ∃ specs, ls.TagSpecificationsKey = some specs ∧
          ∃ ts ∈ specs, ts.ResourceType = "instance" ∧ rfdkTag ∈ ts.Tags) := by
  constructor
  · intro h
    constructor
    · simp [normalizeFleet, tagSpecifications, h]
    · intro ls hls
      simp only [normalizeFleet, List.mem_singleton] at hls
      subst hls
      simp [launchSpecification, tagSpecifications, h]
  · intro h
    have hne : fleet.tags.isEmpty = false := by
      cases htags : fleet.tags with
      | nil => exact absurd htags h
      | cons a l => simp
    constructor
    · refine ⟨[{ ResourceType := "spot-fleet-request", Tags := rfdkTag :: fleet.tags }], ?_, ?_⟩
      · simp [normalizeFleet, tagSpecifications, hne]
      · exact ⟨_, List.mem_singleton_self _, rfl, List.mem_cons_self _ _⟩
    · intro ls hls
      simp only [normalizeFleet, List.mem_singleton] at hls
      subst hls
      refine ⟨[{ ResourceType := "instance", Tags := rfdkTag :: fleet.tags }], ?_, ?_⟩
      · simp [launchSpecification, tagSpecifications, hne]
      · exact ⟨_, List.mem_singleton_self _, rfl, List.mem_cons_self _ _⟩

/-- A concrete fleet with one configured tag. -/
def sampleTaggedFleet : FleetDefinition :=
  { sampleFleet with tags := [{ name := "key", value := "value" }] }

/-- C6 witness: the tag-free sample fleet yields a document with both
tag-specification keys absent; the one-tag sample fleet yields blocks for
both resource types carrying the RFDK tag. -/
theorem tag_specifications_witness :
    ((normalizeFleet sampleFleet).TagSpecificationsKey = none ∧
      ∀ ls ∈ (normalizeFleet sampleFleet).LaunchSpecifications,
        ls.TagSpecificationsKey = none) ∧
    ((∃ specs, (normalizeFleet sampleTaggedFleet).TagSpecificationsKey = some specs ∧
        ∃ ts ∈ specs, ts.ResourceType = "spot-fleet-request" ∧ rfdkTag ∈ ts.Tags) ∧
      ∀ ls ∈ (normalizeFleet sampleTaggedFleet).LaunchSpecifications,
        ∃ specs, ls.TagSpecificationsKey = some specs ∧
          ∃ ts ∈ specs, ts.ResourceType = "instance" ∧ rfdkTag ∈ ts.Tags) := by
  refine ⟨?_, ?_⟩
  · exact (tag_specifications sampleFleet).1 rfl
  · exact (tag_specifications sampleTaggedFleet).2 (by decide)

/-- Application protocol of the scheduler endpoint. -/
inductive EndpointProtocol where
  | http
  | https
deriving DecidableEq, Repr

/-- Wire string of the application protocol. -/
def protocolToString : EndpointProtocol → String
  | .http => "HTTP"
  | .https => "HTTPS"

/-- Renders an endpoint port as its decimal string form (portAsString). -/
def portAsString (p : Nat) : String :=
  toString p

/-- Modelled from the spec: the deployment target — the scheduler (render
queue) endpoint being configured (§3 DeploymentTarget and the endpoint
descriptor provider of §6): endpoint identity, hostname, port, protocol, the
CA-certificate secret reference present only when the endpoint uses TLS with
a private certificate authority, the reported version and the region. -/
structure RenderQueueModel where
  endpointId : String
  hostname : String
  port : Nat
  protocol : EndpointProtocol
  certChain : Option String
  reportedVersion : DeadlineVersion
  region : String
deriving DecidableEq, Repr

/-- The connection object of the wire payload: the port is carried as a
string, and caCertificateArn is present only for TLS with a private CA. -/
structure ConnectionDescriptor where
  hostname : String
  port : String
  protocol : String
  caCertificateArn : Option String
deriving DecidableEq, Repr

/-- Modelled from the spec: derivation of the connection object (§3
ConnectionDescriptor, §6 wire payload): hostname and protocol copied, the
port rendered via portAsString, and the CA-certificate reference passed
through when present. -/
def mkConnection (rq : RenderQueueModel) : ConnectionDescriptor :=
  { hostname := rq.hostname,
    port := portAsString rq.port,
    protocol := protocolToString rq.protocol,
    caCertificateArn := rq.certChain }

/-- A permission statement computed by the Access Grant Resolver. -/
inductive PermissionStatement where
  | passRole (roleArns : List String)
  | tagWrite
  | readSecret (arn : String)
  | adminPolicy (policyName : String)
deriving DecidableEq, Repr

/-- Modelled from the spec: the Access Grant Resolver (§4.5): with at least
one fleet it emits the two fixed administrative policy references, a
pass-role grant covering every fleet role and fleet-instance role, the
tag-write grant on spot-fleet-request resources, and a read-secret grant for
the CA certificate exactly when the connection carries one; with an empty
fleet list it emits nothing, as §4.5 and the unit tests pin (no grants at
all). -/
def resolveGrants (fleets : List FleetDefinition) (rq : RenderQueueModel) :
    List PermissionStatement :=
  if fleets.isEmpty then []
  else
    [PermissionStatement.adminPolicy "AWSThinkboxDeadlineSpotEventPluginAdminPolicy",
     PermissionStatement.adminPolicy "AWSThinkboxDeadlineResourceTrackerAdminPolicy",
     PermissionStatement.passRole
       (fleets.map (fun f => f.fleetRoleArn) ++ fleets.map (fun f => f.fleetInstanceRoleArn)),
     PermissionStatement.tagWrite] ++
    (match rq.certChain with
     | some arn => [PermissionStatement.readSecret arn]
     | none => [])

/-- The compiled wire payload: connection object, merged plugin settings, and
the per-group fleet request documents — the latter key entirely absent when
no fleets are supplied. -/
structure CompiledPayload where
  connection : ConnectionDescriptor
  spotPluginConfigurations : PluginSettingsWire
  spotFleetRequestConfigurations : Option (List (String × FleetRequestDocument))
deriving DecidableEq, Repr

/-- Modelled from the spec: assembly of the wire payload (§6): connection,
merged settings (defaulting the region to the target's region), and the
group-name-to-request-document mapping, omitted entirely when the fleet list
is empty. -/
def mkPayload (rq : RenderQueueModel) (settings : SpotEventPluginSettings)
    (fleets : List FleetDefinition) : CompiledPayload :=
  { connection := mkConnection rq,
    spotPluginConfigurations := compileSettings settings rq.region,
    spotFleetRequestConfigurations :=
      if fleets.isEmpty then none
      else some (fleets.map (fun f => (f.groupName, normalizeFleet f))) }

/-- The caller-facing construction properties of the configuration engine:
the target render queue, an optional fleet list and the partial settings. -/
structure ConfigureProps where
  renderQueue : RenderQueueModel
  spotFleets : Option (List FleetDefinition)
  settings : SpotEventPluginSettings
deriving Repr

/-- Modelled from the spec: construction of the configuration engine (§2,
§4.2): register the endpoint in the singleton registry, gate on the minimum
version, validate group-name uniqueness of the (possibly absent) fleet list,
then produce the updated registry, the compiled payload and the access
grants. -/
def constructConfigureSpotEventPlugin (reg : List String) (props : ConfigureProps) :
    Except String (List String × CompiledPayload × List PermissionStatement) := do
  let reg2 ← registerEndpoint reg props.renderQueue.endpointId
  checkMinimumVersion props.renderQueue.reportedVersion
  let fleets := props.spotFleets.getD []
  validateGroupNames fleets
  Except.ok (reg2, mkPayload props.renderQueue props.settings fleets,
    resolveGrants fleets props.renderQueue)

/-- C4. Empty fleet list: with an empty or undefined fleet list (and a
supported version and an unregistered endpoint), construction succeeds, the
produced payload has no spotFleetRequestConfigurations key at all, and the
Access Grant Resolver emits zero permission statements. -/
theorem empty_fleet_list (reg : List String) (props : ConfigureProps)
    (hfleets : props.spotFleets = none ∨ props.spotFleets = some [])
    (hver : semanticLt props.renderQueue.reportedVersion minimumVersion = false)
    (hreg : props.renderQueue.endpointId ∉ reg) :
    ∃ reg2 payload,
      constructConfigureSpotEventPlugin reg props = Except.ok (reg2, payload, []) ∧
      payload.spotFleetRequestConfigurations = none := by
  refine ⟨props.renderQueue.endpointId :: reg,
    mkPayload props.renderQueue props.settings [], ?_, rfl⟩
  have hfl : props.spotFleets.getD [] = [] := by
    rcases hfleets with h | h <;> simp [h]
  simp only [constructConfigureSpotEventPlugin, registerEndpoint, hreg,
    if_neg, not_false_iff, checkMinimumVersion, hver, Bool.false_eq_true,
    if_false, hfl, validateGroupNames, findDuplicate, List.map_nil,
    resolveGrants, List.isEmpty_nil]
  rfl

/-- A concrete render queue endpoint over plain HTTP, reporting version
10.1.12 in its three-component form. -/
def sampleRenderQueue : RenderQueueModel :=
  { endpointId := "rq1", hostname := "renderqueue.local", port := 8080,
    protocol := .http, certChain := none,
    reportedVersion := { major := 10, minor := 1, patch := 12, build := none },
    region := "us-east-1" }

/-- C4 witness: constructing against the sample render queue with an
undefined fleet list succeeds, with the fleet-request key absent from the
payload and no grants emitted. -/
theorem empty_fleet_list_witness :
    ∃ reg2 payload,
      constructConfigureSpotEventPlugin []
        { renderQueue := sampleRenderQueue, spotFleets := none,
          settings := emptySettings } = Except.ok (reg2, payload, []) ∧
      payload.spotFleetRequestConfigurations = none :=
  empty_fleet_list []
    { renderQueue := sampleRenderQueue, spotFleets := none, settings := emptySettings }
    (Or.inl rfl) (by decide) (by decide)

/-- C9 counterexample: the claim that the tag-write grant is emitted for
every input, unconditionally, fails on the empty fleet list: against the
sample render queue the resolver emits no statements at all, so no tag-write
grant is present. -/
theorem tagWrite_unconditional_counterexample :
    PermissionStatement.tagWrite ∉ resolveGrants [] sampleRenderQueue := by
  simp [resolveGrants]

/-- C9 amended. The tag-write grant (ec2:CreateTags scoped to
spot-fleet-request resources) is emitted exactly when the fleet list is
non-empty; with zero fleets the resolver emits no statements, so no tag-write
grant either. -/
theorem tagWrite_iff_fleets (fleets : List FleetDefinition) (rq : RenderQueueModel) :
    PermissionStatement.tagWrite ∈ resolveGrants fleets rq ↔ fleets ≠ [] := by
  cases fleets with
  | nil => simp [resolveGrants]
  | cons f fs => simp [resolveGrants]

/-- A concrete render queue endpoint over TLS with a private CA certificate
secret. -/
def sampleTlsRenderQueue : RenderQueueModel :=
  { endpointId := "rq2", hostname := "renderqueue.deadline-test.internal",
    port := 4433, protocol := .https, certChain := some "arn:ca-cert-secret",
    reportedVersion := { major := 10, minor := 1, patch := 12, build := some 0 },
    region := "us-east-1" }

/-- C10. Connection serialization: the connection object's port field is the
endpoint's port rendered via portAsString (the decimal string, not a number),
for plain-HTTP and TLS endpoints alike; when the endpoint uses TLS with a
private CA the connection carries the caCertificateArn, and otherwise that
key is absent. -/
theorem connection_serialization (rq : RenderQueueModel) :
    (mkConnection rq).port = portAsString rq.port ∧
    portAsString rq.port = Nat.repr rq.port ∧
    (∀ arn, rq.certChain = some arn → (mkConnection rq).caCertificateArn = some arn) ∧
    (rq.certChain = none → (mkConnection rq).caCertificateArn = none) := by
  refine ⟨rfl, rfl, ?_, ?_⟩
  · intro arn h
    simp [mkConnection, h]
  · intro h
    simp [mkConnection, h]

/-- C10 witness: the plain-HTTP endpoint on port 8080 yields port string
"8080" and no caCertificateArn key; the TLS endpoint on port 4433 yields port
string "4433" and carries its CA certificate reference. -/
theorem connection_serialization_witness :
    (mkConnection sampleRenderQueue).port = "8080" ∧
    (mkConnection sampleRenderQueue).caCertificateArn = none ∧
    (mkConnection sampleTlsRenderQueue).port = "4433" ∧
    (mkConnection sampleTlsRenderQueue).caCertificateArn = some "arn:ca-cert-secret" := by
  refine ⟨rfl, ?_, rfl, ?_⟩
  · exact (connection_serialization sampleRenderQueue).2.2.2 rfl
  · exact (connection_serialization sampleTlsRenderQueue).2.2.1 "arn:ca-cert-secret" rfl
